import Mathlib

/-!
Verification of the KP astrology backend core (Placidus houses, KP sub-lord
lattice, Vimshottari period trees, panchangam day elements).

The Python sources are embedded shallowly:
* angles and durations are exact rationals (`ℚ`) where the code is plain
  arithmetic, and reals (`ℝ`) where the code uses transcendental functions;
* Python's `%` on floats with a positive modulus is modelled by `pymod`
  (`x - m * ⌊x / m⌋`);
* fallible code (`raise ValueError`, `KeyError`, `IndexError`) is modelled
  with `Except` / `Option`.
-/

/-- Python `x % m` for a positive modulus `m` (result in `[0, m)`). -/
def pymod {α : Type*} [LinearOrderedField α] [FloorRing α] (x m : α) : α :=
  x - m * ⌊x / m⌋

/-- Python `str.lower()` on the ASCII body names used by the code. -/
def lowerChar (c : Char) : Char :=
  if c.isUpper then Char.ofNat (c.toNat + 32) else c

/-- Python `str.lower()` (ASCII; the ephemeris roster names are ASCII). -/
def lowerStr (s : String) : String := ⟨s.data.map lowerChar⟩

namespace KpCalc

/-! Embedding of `app/core/kp_calc.py`. -/

/-- The 27 nakshatra lords (`NAKSHATRA_LORDS`). -/
def NAKSHATRA_LORDS : List String :=
  ["Ketu", "Venus", "Sun", "Moon", "Mars", "Rahu",
   "Jupiter", "Saturn", "Mercury",
   "Ketu", "Venus", "Sun", "Moon", "Mars", "Rahu",
   "Jupiter", "Saturn", "Mercury",
   "Ketu", "Venus", "Sun", "Moon", "Mars", "Rahu",
   "Jupiter", "Saturn", "Mercury"]

/-- Vimshottari dasha order with year weights (`DASHA_ORDER`). -/
def DASHA_ORDER : List (String × ℚ) :=
  [("Ketu", 7), ("Venus", 20), ("Sun", 6), ("Moon", 10), ("Mars", 7),
   ("Rahu", 18), ("Jupiter", 16), ("Saturn", 19), ("Mercury", 17)]

def TOTAL_YEARS : ℚ := 120

/-- `_norm360` from `kp_calc.py` (the negative branch is dead for `pymod`,
but kept to mirror the source). -/
def norm360 (x : ℚ) : ℚ :=
  let y := pymod x 360
  if y ≥ 0 then y else y + 360

/-- The local `star_size = 360.0 / 27.0` used in both kp functions. -/
def star_size : ℚ := 360 / 27

/-- The sub-lord scan loop of `kp_star_sub`: walk `DASHA_ORDER` with an
accumulator, returning the first lord whose cumulative upper bound
(≤-inclusive) contains `pos`; `none` models falling off the loop. -/
def subScan : List (String × ℚ) → ℚ → ℚ → Option String
  | [], _, _ => none
  | (lord, years) :: rest, acc, pos =>
    let span := star_size * (years / TOTAL_YEARS)
    if pos ≤ acc + span then some lord else subScan rest (acc + span) pos

/-- `kp_star_sub`: (star lord, sub lord) of a nirayana longitude. The
fallback after the loop is `DASHA_ORDER[-1][0]` = Mercury, and the list
index `star_index` is in range for `lon' < 360` so `getD` never defaults. -/
def kp_star_sub (lon : ℚ) : String × String :=
  let lon' := norm360 lon
  let star_index := (⌊lon' / star_size⌋).toNat
  let star_lord := NAKSHATRA_LORDS.getD star_index ("Mercury")
  let pos_in_star := lon' - star_index * star_size
  (star_lord, (subScan DASHA_ORDER 0 pos_in_star).getD ("Mercury"))

/-- The second scan of `kp_star_sub_sub`, recovering the offset inside the
containing sub-span together with that span; `none` models the `for`-`else`
fallback (`pos_in_sub = 0`, `sub_span = star_size`). -/
def subScan2 : List (String × ℚ) → ℚ → ℚ → Option (ℚ × ℚ)
  | [], _, _ => none
  | (_, years) :: rest, acc, pos =>
    let span := star_size * (years / TOTAL_YEARS)
    if pos ≤ acc + span then some (pos - acc, span) else subScan2 rest (acc + span) pos

/-- The sub-sub scan of `kp_star_sub_sub` over spans proportional to the
containing sub-span. -/
def subSubScan (sub_span : ℚ) : List (String × ℚ) → ℚ → ℚ → Option String
  | [], _, _ => none
  | (lord2, years2) :: rest, acc2, pos =>
    let span2 := sub_span * (years2 / TOTAL_YEARS)
    if pos ≤ acc2 + span2 then some lord2 else subSubScan sub_span rest (acc2 + span2) pos

/-- `kp_star_sub_sub`: (star, sub, sub-sub) lords of a nirayana longitude. -/
def kp_star_sub_sub (lon : ℚ) : String × String × String :=
  let ss := kp_star_sub lon
  let lon' := norm360 lon
  let star_index := (⌊lon' / star_size⌋).toNat
  let pos_in_star := lon' - star_index * star_size
  let ps := (subScan2 DASHA_ORDER 0 pos_in_star).getD (0, star_size)
  (ss.1, ss.2, (subSubScan ps.2 DASHA_ORDER 0 ps.1).getD ("Mercury"))

end KpCalc

namespace VimshottariUtils

/-! Embedding of `app/core/vimshottari_utils.py`. -/

def ORDER : List String :=
  ["Ketu", "Venus", "Sun", "Moon", "Mars", "Rahu", "Jupiter", "Saturn", "Mercury"]

/-- The `DASHA_YEARS` dict as a total lookup (every key actually used is one
of the nine lords, so the default 0 is never reached on source paths). -/
def DASHA_YEARS (s : String) : ℚ :=
  if s = "Ketu" then 7
  else if s = "Venus" then 20
  else if s = "Sun" then 6
  else if s = "Moon" then 10
  else if s = "Mars" then 7
  else if s = "Rahu" then 18
  else if s = "Jupiter" then 16
  else if s = "Saturn" then 19
  else if s = "Mercury" then 17
  else 0

def NAKSHATRA_SPAN : ℚ := 13 + 20 / 60

/-- `moon_vimshottari_info`: nakshatra lord of the Moon's sidereal longitude
and the remaining balance of that lord's dasha years. -/
def moon_vimshottari_info (moon_lon_sid : ℚ) : String × ℚ :=
  let lon := pymod moon_lon_sid 360
  let nak_index := (⌊lon / NAKSHATRA_SPAN⌋).toNat
  let nak_offset := pymod lon NAKSHATRA_SPAN
  let lord := ORDER.getD (nak_index % 9) ("Ketu")
  let total_years := DASHA_YEARS lord
  (lord, total_years * (1 - nak_offset / NAKSHATRA_SPAN))

end VimshottariUtils

namespace VimshottariTree

/-! Embedding of `app/core/vimshottari_tree.py`.

Instants are rationals counting days (the code's `datetime` arithmetic via
`_add_days` / `total_seconds() / 86400.0`); `_iso` serialization is dropped.
A period node keeps the level tag, lord, start, end (`stop`; `end` is a Lean
keyword) and the optional children list (`[]` when the source attaches no
children key). -/

structure Node where
  level : String
  lord : String
  start : ℚ
  stop : ℚ
  children : List Node
deriving Repr

def ORDER : List String :=
  ["Ketu", "Venus", "Sun", "Moon", "Mars", "Rahu", "Jupiter", "Saturn", "Mercury"]

/-- The `DASHA_YEARS` dict as a total lookup (source lookups happen only
after the lord was validated against `ORDER`, so the 0 default is dead). -/
def DASHA_YEARS (s : String) : ℚ :=
  if s = "Ketu" then 7
  else if s = "Venus" then 20
  else if s = "Sun" then 6
  else if s = "Moon" then 10
  else if s = "Mars" then 7
  else if s = "Rahu" then 18
  else if s = "Jupiter" then 16
  else if s = "Saturn" then 19
  else if s = "Mercury" then 17
  else 0

/-- `_days_of_years`: years to days at 365.2425 days/year. -/
def days_of_years (years : ℚ) : ℚ := years * (3652425 / 10000)

/-- `_next_lord`: successor in the cyclic `ORDER` (source indexes
`ORDER[(i + 1) % len(ORDER)]`; `ValueError` for a lord outside `ORDER`
cannot occur on source paths, modelled by the `getD` default). -/
def next_lord (lord : String) : String :=
  ORDER.getD ((ORDER.indexOf lord + 1) % ORDER.length) ("Ketu")

/-- The nine lords visited by a 9-iteration loop that starts at `lord` and
steps with `_next_lord`. -/
def lordsFrom (lord : String) : List String :=
  (List.range 9).map fun i => next_lord^[i] lord

/-- One level of the eager tree builder `build_vimshottari_tree`: walk the
given lords, give child `i` the span `pDays * (years / 120)`, start each
child where the previous one ended, and force the *last* child's end to the
parent's end (`if idx == len(ORDER) - 1: cur_end = parent_end`). `kids`
builds the attached children one level down from the child's own
(possibly forced) interval and computed span. -/
def buildRow (name : String) (kids : String → ℚ → ℚ → ℚ → List Node) :
    List String → ℚ → ℚ → ℚ → List Node
  | [], _, _, _ => []
  | l :: rest, curStart, pEnd, pDays =>
    let d := pDays * (DASHA_YEARS l / 120)
    let curEnd := if rest.isEmpty then pEnd else curStart + d
    { level := name, lord := l, start := curStart, stop := curEnd,
      children := kids l curStart curEnd d }
      :: buildRow name kids rest curEnd pEnd pDays

/-- The nested per-level loops of `build_vimshottari_tree` (bhukti → antara
→ sukshma → prana), parameterized by the list of level names still to
build; the four unrolled loops in the source are textually identical up to
these names. -/
def buildLevels (names : List String) (lord : String) (s e d : ℚ) : List Node :=
  match names with
  | [] => []
  | name :: deeper =>
    buildRow name (fun l cs ce dd => buildLevels deeper l cs ce dd) (lordsFrom lord) s e d
termination_by names.length

/-- `build_vimshottari_tree`: one mahadasha subtree down to `max_levels`
(1–5) levels; errors on a lord outside the 9-symbol alphabet before
building anything. -/
def build_vimshottari_tree (start_utc : ℚ) (maha_lord : String)
    (maha_balance_years : Option ℚ) (max_levels : ℤ) : Except String (List Node) :=
  if maha_lord ∉ ORDER then Except.error ("Invalid maha lord: " ++ maha_lord)
  else
    let maha_total_years := DASHA_YEARS maha_lord
    let maha_years :=
      match maha_balance_years with
      | none => maha_total_years
      | some b => if b < 0 then (0 : ℚ) else if b > maha_total_years then maha_total_years else b
    let maha_days := days_of_years maha_years
    let maha_end := start_utc + maha_days
    if max_levels ≤ 1 then
      Except.ok [{ level := "mahadasha", lord := maha_lord, start := start_utc,
                   stop := maha_end, children := [] }]
    else
      let names :=
        if max_levels > 4 then ["bhukti", "antara", "sukshma", "prana"]
        else if max_levels > 3 then ["bhukti", "antara", "sukshma"]
        else if max_levels > 2 then ["bhukti", "antara"]
        else ["bhukti"]
      Except.ok [{ level := "mahadasha", lord := maha_lord, start := start_utc,
                   stop := maha_end,
                   children := buildLevels names maha_lord start_utc maha_end maha_days }]

/-- The loop of `build_level_list`: 9 lords from `start_lord`, each span
`parent_days * (years / 120)`; the end is clamped to the window end on the
last item or on overshoot, and the loop breaks once `cur_start >= end`. -/
def levelLoop (level : String) (endQ pDays : ℚ) : List String → ℚ → List Node
  | [], _ => []
  | l :: rest, curStart =>
    let sub_days := pDays * (DASHA_YEARS l / 120)
    let e0 := curStart + sub_days
    let curEnd := if rest.isEmpty then endQ else if e0 > endQ then endQ else e0
    { level := level, lord := l, start := curStart, stop := curEnd, children := [] }
      :: (if curEnd ≥ endQ then [] else levelLoop level endQ pDays rest curEnd)

/-- `build_level_list`: exactly one level's nodes within `[start, end)`;
empty result on a degenerate window, error on an invalid lord. -/
def build_level_list (level : String) (start_utc end_utc : ℚ)
    (start_lord : String) : Except String (List Node) :=
  if start_lord ∉ ORDER then Except.error ("Invalid lord: " ++ start_lord)
  else if end_utc ≤ start_utc then Except.ok []
  else levelLoop level end_utc (end_utc - start_utc) (lordsFrom start_lord) start_utc
      |> Except.ok

/-- The 8-iteration tail loop of `build_mahadasha_list_120y_9items`. -/
def mahaTail : ℕ → String → ℚ → List Node
  | 0, _, _ => []
  | n + 1, lord, curStart =>
    let yrs := DASHA_YEARS lord
    let days := days_of_years yrs
    let e := curStart + days
    { level := "mahadasha", lord := lord, start := curStart, stop := e, children := [] }
      :: mahaTail n (next_lord lord) e

/-- `build_mahadasha_list_120y_9items`: a balance-adjusted first mahadasha
followed by 8 full ones; errors on an invalid lord before building. -/
def build_mahadasha_list_120y_9items (start_utc : ℚ) (maha_lord : String)
    (maha_balance_years : Option ℚ) : Except String (List Node) :=
  if maha_lord ∉ ORDER then Except.error ("Invalid maha lord: " ++ maha_lord)
  else
    let first_total := DASHA_YEARS maha_lord
    let first_years :=
      match maha_balance_years with
      | none => first_total
      | some b => if b < 0 then (0 : ℚ) else if b > first_total then first_total else b
    let first_days := days_of_years first_years
    let first_end := start_utc + first_days
    Except.ok ({ level := "mahadasha", lord := maha_lord, start := start_utc,
                 stop := first_end, children := [] }
      :: mahaTail 8 (next_lord maha_lord) first_end)

/-- `[start, stop]` intervals of `ns` tile `[a, b]`: the first node starts
at `a`, each node starts where the previous one stopped, and the last node
stops at `b` (for `[]` this forces `a = b`). -/
def chainFrom (a b : ℚ) : List Node → Prop
  | [] => a = b
  | n :: rest => n.start = a ∧ chainFrom n.stop b rest

/-- Total signed span of a node list. -/
def spanSum (ns : List Node) : ℚ := (ns.map fun n => n.stop - n.start).sum

mutual

/-- Every node of the tree whose children list is nonempty has its children
tiling exactly its own interval, with spans summing to the parent span. -/
def nodeOK : Node → Prop
  | { start := s, stop := e, children := cs, .. } =>
    (cs ≠ [] → chainFrom s e cs ∧ spanSum cs = e - s) ∧ allOK cs

def allOK : List Node → Prop
  | [] => True
  | n :: rest => nodeOK n ∧ allOK rest

end

/-- `nodeOK` holds across a builder result (trivially for an error). -/
def treeOK : Except String (List Node) → Prop
  | Except.error _ => True
  | Except.ok ns => allOK ns

/-- A builder result tiles `[a, b]` (trivially for an error). -/
def partitionsE (a b : ℚ) : Except String (List Node) → Prop
  | Except.error _ => True
  | Except.ok ns => chainFrom a b ns ∧ spanSum ns = b - a

end VimshottariTree

namespace Panchangam

/-! Embedding of the pure slices of `app/core/panchangam_calc.py` (the
skyfield ephemeris and sunrise search are external collaborators; what is
modelled is the angle arithmetic and the position-list lookup). -/

def STAR_SPAN : ℚ := 360 / 27
def TITHI_SPAN : ℚ := 12
def KARANA_SPAN : ℚ := 6

/-- `wrap360` from `panchangam_calc.py` (negative branch dead for `pymod`,
kept to mirror the source). -/
def wrap360 (x : ℚ) : ℚ :=
  let y := pymod x 360
  if y ≥ 0 then y else y + 360

/-- The tithi index reported by `compute_panchangam`
(`int(math.floor(d0 / TITHI_SPAN)) + 1`, line 226) as a function of the
sun/moon angular difference `d0`. -/
def tithi_index (d0 : ℚ) : ℤ := ⌊d0 / TITHI_SPAN⌋ + 1

/-- The body-scan loop of `_sun_moon_sid_at`: fold over the position list
keeping the last tropical longitude seen under each name (case-insensitive
`"sun"` / `"moon"` match). A position entry is modelled as (name, lon). -/
def scanSunMoon (planets : List (String × ℚ)) : Option ℚ × Option ℚ :=
  planets.foldl
    (fun (st : Option ℚ × Option ℚ) p =>
      let nm := lowerStr p.1
      if nm = "sun" then (some p.2, st.2)
      else if nm = "moon" then (st.1, some p.2)
      else st)
    (none, none)

/-- `_sun_moon_sid_at` after the provider call: find the Sun and Moon
tropical longitudes, fall back to the first two list entries if either is
missing (`sun_t = planets[0]["lon"]; moon_t = planets[1]["lon"]`), and
siderealize by subtracting the ayanamsa. `none` models the `IndexError`
when the fallback fires on a list with fewer than two entries. -/
def sun_moon_sid_at (planets : List (String × ℚ)) (ayan : ℚ) : Option (ℚ × ℚ) :=
  let st := scanSunMoon planets
  let raw : Option (ℚ × ℚ) :=
    if st.1 = none ∨ st.2 = none then
      match planets[0]?, planets[1]? with
      | some p0, some p1 => some (p0.2, p1.2)
      | _, _ => none
    else
      match st.1, st.2 with
      | some s, some m => some (s, m)
      | _, _ => none
  raw.map fun sm => (wrap360 (sm.1 - ayan), wrap360 (sm.2 - ayan))

end Panchangam

namespace MainApp

/-! Embedding of the pure slices of `main.py`. -/

/-- The Moon lookup of `_ensure_session` (lines 421–427): scan the position
list for the first entry whose lowercased name is `"moon"`, reduce its
tropical longitude mod 360, and raise `ValueError` if no such entry
exists. -/
def ensure_session_moon (planets : List (String × ℚ)) : Except String ℚ :=
  match planets.find? (fun p => lowerStr p.1 = "moon") with
  | some p => Except.ok (pymod p.2 360)
  | none => Except.error ("Moon not found in NASA planets list")

end MainApp

namespace HousesPlacidus

/-! Embedding of `app/core/houses_placidus.py` over the reals (the source
works with `math.sin` etc., so this section is noncomputable). -/

noncomputable def DEG2RAD : ℝ := Real.pi / 180
noncomputable def RAD2DEG : ℝ := 180 / Real.pi

/-- `LON_SIGN = +1` (India convention). -/
def LON_SIGN : ℝ := 1

/-- `FLIP_ASC_180 = True` (MK fix: flip only ASC by 180°). -/
def FLIP_ASC_180 : Bool := true

/-- `_wrap360`: Python `x % 360.0`. -/
noncomputable def wrap360 (x : ℝ) : ℝ := pymod x 360

/-- `_wrap_pi`: `(x + pi) % (2 pi) - pi`. -/
noncomputable def wrap_pi (x : ℝ) : ℝ := pymod (x + Real.pi) (2 * Real.pi) - Real.pi

/-- `mean_obliquity_deg` (Meeus polynomial). -/
noncomputable def mean_obliquity_deg (jd : ℝ) : ℝ :=
  let T := (jd - 2451545) / 36525
  23 + 26 / 60 + 21.448 / 3600 - 46.8150 * T / 3600 - 0.00059 * T * T / 3600
    + 0.001813 * T * T * T / 3600

/-- `gmst_deg` (Greenwich mean sidereal time, degrees). -/
noncomputable def gmst_deg (jd : ℝ) : ℝ :=
  let T := (jd - 2451545) / 36525
  wrap360 (280.46061837 + 360.98564736629 * (jd - 2451545) + 0.000387933 * T * T
    - T * T * T / 38710000)

/-- `lst_rad` (local sidereal time, radians). -/
noncomputable def lst_rad (jd lon_deg_east : ℝ) : ℝ :=
  wrap360 (gmst_deg jd + lon_deg_east * LON_SIGN) * DEG2RAD

/-- `math.atan2 y x` (range `(-π, π]` realized by `Complex.arg`). -/
noncomputable def atan2 (y x : ℝ) : ℝ := Complex.arg ⟨x, y⟩

/-- The raw arcsine argument of `ecl_to_equ`
(`sin β cos ε + cos β sin ε sin λ`). -/
noncomputable def sin_dec_raw (lam beta eps : ℝ) : ℝ :=
  Real.sin beta * Real.cos eps + Real.cos beta * Real.sin eps * Real.sin lam

/-- The clamped arcsine argument (`max(-1.0, min(1.0, sin_dec))`). -/
noncomputable def sin_dec_clamped (lam beta eps : ℝ) : ℝ :=
  max (-1) (min 1 (sin_dec_raw lam beta eps))

/-- `ecl_to_equ`: ecliptic → equatorial (returns (ra, dec), radians). -/
noncomputable def ecl_to_equ (lam beta eps : ℝ) : ℝ × ℝ :=
  let dec := Real.arcsin (sin_dec_clamped lam beta eps)
  let y := Real.sin lam * Real.cos eps - Real.tan beta * Real.sin eps
  let x := Real.cos lam
  let ra := pymod (atan2 y x) (2 * Real.pi)
  (ra, dec)

/-- `mc_longitude_deg` (obliquity deliberately unused). -/
noncomputable def mc_longitude_deg (theta : ℝ) : ℝ :=
  wrap360 (atan2 (Real.sin theta) (Real.cos theta) * RAD2DEG)

/-- `asc_longitude_deg` (raw ascendant, before the 180° flip). -/
noncomputable def asc_longitude_deg (theta eps phi : ℝ) : ℝ :=
  wrap360 (atan2 (-Real.cos theta)
    (Real.sin theta * Real.cos eps + Real.tan phi * Real.sin eps) * RAD2DEG)

/-- The clamped arccosine argument of `_semi_diurnal_arc`
(`max(-1.0, min(1.0, -tan φ · tan δ))`). -/
noncomputable def sda_arg (phi dec : ℝ) : ℝ :=
  max (-1) (min 1 (-(Real.tan phi * Real.tan dec)))

/-- `_semi_diurnal_arc`: `acos` of the clamped argument. -/
noncomputable def semi_diurnal_arc (phi dec : ℝ) : ℝ :=
  Real.arccos (sda_arg phi dec)

/-- The residual function `f` defined inside `_solve_cusp`. -/
noncomputable def cusp_residual (theta eps phi frac lam : ℝ) : ℝ :=
  let rd := ecl_to_equ lam 0 eps
  let sda := semi_diurnal_arc phi rd.2
  let h_target := frac * sda
  let h := wrap_pi (theta - rd.1)
  wrap_pi (h - h_target)

/-- The coarse 49-point scan of `_solve_cusp` (`range(-120, 121, 5)` in
degrees around the guess), keeping the point with smallest `|f|`
(initial best: the guess itself with value `1e9`). -/
noncomputable def coarseBest (f : ℝ → ℝ) (guess : ℝ) : ℝ × ℝ :=
  (List.range 49).foldl
    (fun (b : ℝ × ℝ) i =>
      let lam := pymod (guess + ((-120 : ℝ) + 5 * (i : ℝ)) * DEG2RAD) (2 * Real.pi)
      let v := |f lam|
      if v < b.2 then (lam, v) else b)
    (guess, 1000000000)

/-- The 40-iteration secant refinement of `_solve_cusp`, with the two
break conditions (`|den| < 1e-14`, `|residual| < 1e-11`). -/
noncomputable def secantGo (f : ℝ → ℝ) : ℕ → ℝ → ℝ → ℝ → ℝ → ℝ
  | 0, _, _, x1, _ => x1
  | n + 1, x0, y0, x1, y1 =>
    if |y1 - y0| < (1e-14 : ℝ) then x1
    else
      let x2 := pymod (x1 - y1 * (x1 - x0) / (y1 - y0)) (2 * Real.pi)
      let y2 := f x2
      if |y2| < (1e-11 : ℝ) then x2
      else secantGo f n x1 y1 x2 y2

/-- `_solve_cusp`: coarse scan then secant refinement; always returns
`_wrap360` of the final estimate. -/
noncomputable def solve_cusp (theta eps phi guess_deg frac : ℝ) : ℝ :=
  let guess := wrap360 guess_deg * DEG2RAD
  let f := fun lam => cusp_residual theta eps phi frac lam
  let best := (coarseBest f guess).1
  let x0 := pymod (best - 2 * DEG2RAD) (2 * Real.pi)
  let x1 := pymod (best + 2 * DEG2RAD) (2 * Real.pi)
  wrap360 (secantGo f 40 x0 (f x0) x1 (f x1) * RAD2DEG)

/-- The cusp dictionary returned by `placidus_cusps` (keys as fields). -/
structure HouseCusps where
  asc : ℝ
  mc : ℝ
  house1 : ℝ
  house2 : ℝ
  house3 : ℝ
  house4 : ℝ
  house5 : ℝ
  house6 : ℝ
  house7 : ℝ
  house8 : ℝ
  house9 : ℝ
  house10 : ℝ
  house11 : ℝ
  house12 : ℝ

/-- `placidus_cusps`: tropical cusps; 11/12/9/8 solved numerically around
MC, the rest derived (IC, descendant and the four antipodal pairs). -/
noncomputable def placidus_cusps (jd lat_deg lon_deg_east : ℝ) : HouseCusps :=
  let eps := mean_obliquity_deg jd * DEG2RAD
  let phi := lat_deg * DEG2RAD
  let theta := lst_rad jd lon_deg_east
  let asc0 := asc_longitude_deg theta eps phi
  let mc := mc_longitude_deg theta
  let asc := if FLIP_ASC_180 then wrap360 (asc0 + 180) else asc0
  let h11 := solve_cusp theta eps phi (mc - 30) (-(1 / 3))
  let h12 := solve_cusp theta eps phi (mc - 60) (-(2 / 3))
  let h9 := solve_cusp theta eps phi (mc + 30) (1 / 3)
  let h8 := solve_cusp theta eps phi (mc + 60) (2 / 3)
  let h4 := wrap360 (mc + 180)
  let h5 := wrap360 (h11 + 180)
  let h6 := wrap360 (h12 + 180)
  let h7 := wrap360 (asc + 180)
  let h2 := wrap360 (h8 + 180)
  let h3 := wrap360 (h9 + 180)
  { asc := asc, mc := mc, house1 := asc, house2 := h2, house3 := h3, house4 := h4,
    house5 := h5, house6 := h6, house7 := h7, house8 := h8, house9 := h9,
    house10 := mc, house11 := h11, house12 := h12 }

/-- `siderealize_cusps`: no-op by design (returns the tropical cusps
unchanged; the ayanamsa is never applied). -/
def siderealize_cusps (cusps_trop : HouseCusps) (ayanamsa_deg : ℝ) : HouseCusps :=
  cusps_trop

end HousesPlacidus

/-! ## Theorems -/

theorem pymod_eq_fract {α : Type*} [LinearOrderedField α] [FloorRing α]
    (x : α) {m : α} (hm : m ≠ 0) : pymod x m = m * Int.fract (x / m) := by
  unfold pymod Int.fract
  field_simp

theorem pymod_nonneg {α : Type*} [LinearOrderedField α] [FloorRing α]
    (x : α) {m : α} (hm : 0 < m) : 0 ≤ pymod x m := by
  rw [pymod_eq_fract x hm.ne']
  exact mul_nonneg hm.le (Int.fract_nonneg _)

theorem pymod_lt {α : Type*} [LinearOrderedField α] [FloorRing α]
    (x : α) {m : α} (hm : 0 < m) : pymod x m < m := by
  rw [pymod_eq_fract x hm.ne']
  calc m * Int.fract (x / m) < m * 1 :=
        (mul_lt_mul_left hm).mpr (Int.fract_lt_one _)
    _ = m := mul_one m

theorem pymod_eq_self {α : Type*} [LinearOrderedField α] [FloorRing α]
    {x m : α} (h0 : 0 ≤ x) (h1 : x < m) : pymod x m = x := by
  have hm : (0 : α) < m := lt_of_le_of_lt h0 h1
  have hfl : ⌊x / m⌋ = 0 := by
    rw [Int.floor_eq_zero_iff]
    constructor
    · exact div_nonneg h0 hm.le
    · rw [div_lt_one hm]; exact h1
  simp [pymod, hfl]

/-- Wrapping `x + 180`, then taking the wrapped difference with `x`, gives
exactly 180: the derived opposite cusps are antipodal on the nose. -/
theorem pymod_diff_180 {α : Type*} [LinearOrderedField α] [FloorRing α] (x : α) :
    pymod (pymod (x + 180) 360 - x) 360 = 180 := by
  have h1 : pymod (x + 180) 360 - x = 180 - 360 * ((⌊(x + 180) / 360⌋ : ℤ) : α) := by
    unfold pymod; ring
  rw [h1]
  unfold pymod
  have h2 : (180 - 360 * ((⌊(x + 180) / 360⌋ : ℤ) : α)) / 360
      = 1 / 2 + ((-⌊(x + 180) / 360⌋ : ℤ) : α) := by
    push_cast
    ring
  rw [h2, Int.floor_add_int]
  have h4 : ⌊(1 : α) / 2⌋ = 0 := by
    rw [Int.floor_eq_zero_iff]
    constructor <;> norm_num
  rw [h4]
  push_cast
  ring

namespace HousesPlacidus

theorem wrap360_nonneg (x : ℝ) : 0 ≤ wrap360 x :=
  pymod_nonneg x (by norm_num)

theorem wrap360_lt (x : ℝ) : wrap360 x < 360 :=
  pymod_lt x (by norm_num)

theorem solve_cusp_nonneg (theta eps phi guess_deg frac : ℝ) :
    0 ≤ solve_cusp theta eps phi guess_deg frac :=
  wrap360_nonneg _

theorem solve_cusp_lt (theta eps phi guess_deg frac : ℝ) :
    solve_cusp theta eps phi guess_deg frac < 360 :=
  wrap360_lt _

end HousesPlacidus

/-- Claim C4: for every Julian day, latitude and east longitude, the cusp
set returned by `placidus_cusps` has each opposite-house pair (1/7, 4/10,
5/11, 6/12, 2/8, 3/9) differing by exactly 180° modulo 360° (hence within
any floating tolerance such as 1e-9), and `house1` equals `asc` while
`house10` equals `mc`. -/
theorem c4_opposite_pairs (jd lat lon : ℝ) :
    (HousesPlacidus.placidus_cusps jd lat lon).house1
        = (HousesPlacidus.placidus_cusps jd lat lon).asc
    ∧ (HousesPlacidus.placidus_cusps jd lat lon).house10
        = (HousesPlacidus.placidus_cusps jd lat lon).mc
    ∧ HousesPlacidus.wrap360 ((HousesPlacidus.placidus_cusps jd lat lon).house7
        - (HousesPlacidus.placidus_cusps jd lat lon).house1) = 180
    ∧ HousesPlacidus.wrap360 ((HousesPlacidus.placidus_cusps jd lat lon).house4
        - (HousesPlacidus.placidus_cusps jd lat lon).house10) = 180
    ∧ HousesPlacidus.wrap360 ((HousesPlacidus.placidus_cusps jd lat lon).house5
        - (HousesPlacidus.placidus_cusps jd lat lon).house11) = 180
    ∧ HousesPlacidus.wrap360 ((HousesPlacidus.placidus_cusps jd lat lon).house6
        - (HousesPlacidus.placidus_cusps jd lat lon).house12) = 180
    ∧ HousesPlacidus.wrap360 ((HousesPlacidus.placidus_cusps jd lat lon).house2
        - (HousesPlacidus.placidus_cusps jd lat lon).house8) = 180
    ∧ HousesPlacidus.wrap360 ((HousesPlacidus.placidus_cusps jd lat lon).house3
        - (HousesPlacidus.placidus_cusps jd lat lon).house9) = 180 := by
  refine ⟨rfl, rfl, ?_, ?_, ?_, ?_, ?_, ?_⟩ <;>
    exact pymod_diff_180 _

/-- Claim C5: each of the three angle-normalization functions
(`houses_placidus._wrap360`, `kp_calc._norm360`, `panchangam_calc.wrap360`)
returns a value in the half-open range `[0, 360)` on every input of the
exact-arithmetic model, and consequently every cusp value returned by
`placidus_cusps` (each of which is produced through `_wrap360`) lies in
`[0, 360)`. -/
theorem c5_norm_range :
    (∀ x : ℝ, 0 ≤ HousesPlacidus.wrap360 x ∧ HousesPlacidus.wrap360 x < 360)
    ∧ (∀ x : ℚ, 0 ≤ KpCalc.norm360 x ∧ KpCalc.norm360 x < 360)
    ∧ (∀ x : ℚ, 0 ≤ Panchangam.wrap360 x ∧ Panchangam.wrap360 x < 360)
    ∧ (∀ jd lat lon : ℝ,
        (0 ≤ (HousesPlacidus.placidus_cusps jd lat lon).asc
          ∧ (HousesPlacidus.placidus_cusps jd lat lon).asc < 360)
        ∧ (0 ≤ (HousesPlacidus.placidus_cusps jd lat lon).mc
          ∧ (HousesPlacidus.placidus_cusps jd lat lon).mc < 360)
        ∧ (0 ≤ (HousesPlacidus.placidus_cusps jd lat lon).house1
          ∧ (HousesPlacidus.placidus_cusps jd lat lon).house1 < 360)
        ∧ (0 ≤ (HousesPlacidus.placidus_cusps jd lat lon).house2
          ∧ (HousesPlacidus.placidus_cusps jd lat lon).house2 < 360)
        ∧ (0 ≤ (HousesPlacidus.placidus_cusps jd lat lon).house3
          ∧ (HousesPlacidus.placidus_cusps jd lat lon).house3 < 360)
        ∧ (0 ≤ (HousesPlacidus.placidus_cusps jd lat lon).house4
          ∧ (HousesPlacidus.placidus_cusps jd lat lon).house4 < 360)
        ∧ (0 ≤ (HousesPlacidus.placidus_cusps jd lat lon).house5
          ∧ (HousesPlacidus.placidus_cusps jd lat lon).house5 < 360)
        ∧ (0 ≤ (HousesPlacidus.placidus_cusps jd lat lon).house6
          ∧ (HousesPlacidus.placidus_cusps jd lat lon).house6 < 360)
        ∧ (0 ≤ (HousesPlacidus.placidus_cusps jd lat lon).house7
          ∧ (HousesPlacidus.placidus_cusps jd lat lon).house7 < 360)
        ∧ (0 ≤ (HousesPlacidus.placidus_cusps jd lat lon).house8
          ∧ (HousesPlacidus.placidus_cusps jd lat lon).house8 < 360)
        ∧ (0 ≤ (HousesPlacidus.placidus_cusps jd lat lon).house9
          ∧ (HousesPlacidus.placidus_cusps jd lat lon).house9 < 360)
        ∧ (0 ≤ (HousesPlacidus.placidus_cusps jd lat lon).house10
          ∧ (HousesPlacidus.placidus_cusps jd lat lon).house10 < 360)
        ∧ (0 ≤ (HousesPlacidus.placidus_cusps jd lat lon).house11
          ∧ (HousesPlacidus.placidus_cusps jd lat lon).house11 < 360)
        ∧ (0 ≤ (HousesPlacidus.placidus_cusps jd lat lon).house12
          ∧ (HousesPlacidus.placidus_cusps jd lat lon).house12 < 360)) := by
  refine ⟨?_, ?_, ?_, ?_⟩
  · intro x
    exact ⟨HousesPlacidus.wrap360_nonneg x, HousesPlacidus.wrap360_lt x⟩
  · intro x
    have h0 : (0 : ℚ) ≤ pymod x 360 := pymod_nonneg x (by norm_num)
    have h1 : pymod x 360 < 360 := pymod_lt x (by norm_num)
    simp only [KpCalc.norm360, if_pos h0]
    exact ⟨h0, h1⟩
  · intro x
    have h0 : (0 : ℚ) ≤ pymod x 360 := pymod_nonneg x (by norm_num)
    have h1 : pymod x 360 < 360 := pymod_lt x (by norm_num)
    simp only [Panchangam.wrap360, if_pos h0]
    exact ⟨h0, h1⟩
  · intro jd lat lon
    refine ⟨?_, ?_, ?_, ?_, ?_, ?_, ?_, ?_, ?_, ?_, ?_, ?_, ?_, ?_⟩ <;>
      exact ⟨HousesPlacidus.wrap360_nonneg _, HousesPlacidus.wrap360_lt _⟩

/-- Claim C9: for every latitude/declination (including circumpolar cases
where `-tan φ · tan δ` leaves `[-1, 1]`) the semi-diurnal-arc computation
clamps its arccosine argument to `[-1, 1]` and yields a value in `[0, π]`;
the ecliptic→equatorial transform likewise clamps its arcsine argument, so
the declination stays in `[-π/2, π/2]`; and the cusp solver always returns
a (finite) value in `[0, 360)` — no domain error path exists. -/
theorem c9_domain_clamped :
    (∀ phi dec : ℝ,
      (-1 ≤ HousesPlacidus.sda_arg phi dec ∧ HousesPlacidus.sda_arg phi dec ≤ 1)
      ∧ 0 ≤ HousesPlacidus.semi_diurnal_arc phi dec
      ∧ HousesPlacidus.semi_diurnal_arc phi dec ≤ Real.pi)
    ∧ (∀ lam beta eps : ℝ,
      (-1 ≤ HousesPlacidus.sin_dec_clamped lam beta eps
        ∧ HousesPlacidus.sin_dec_clamped lam beta eps ≤ 1)
      ∧ -(Real.pi / 2) ≤ (HousesPlacidus.ecl_to_equ lam beta eps).2
      ∧ (HousesPlacidus.ecl_to_equ lam beta eps).2 ≤ Real.pi / 2)
    ∧ (∀ theta eps phi guess frac : ℝ,
      0 ≤ HousesPlacidus.solve_cusp theta eps phi guess frac
      ∧ HousesPlacidus.solve_cusp theta eps phi guess frac < 360) := by
  refine ⟨?_, ?_, ?_⟩
  · intro phi dec
    refine ⟨⟨le_max_left _ _, max_le (by norm_num) (min_le_left _ _)⟩, ?_, ?_⟩
    · exact Real.arccos_nonneg _
    · exact Real.arccos_le_pi _
  · intro lam beta eps
    refine ⟨⟨le_max_left _ _, max_le (by norm_num) (min_le_left _ _)⟩, ?_, ?_⟩
    · exact Real.neg_pi_div_two_le_arcsin _
    · exact Real.arcsin_le_pi_div_two _
  · intro theta eps phi guess frac
    exact ⟨HousesPlacidus.solve_cusp_nonneg theta eps phi guess frac,
      HousesPlacidus.solve_cusp_lt theta eps phi guess frac⟩

/-- Claim C10: `siderealize_cusps` returns its tropical input unchanged for
every ayanamsa value — it is the identity, so any number of applications
leaves the cusps tropical. -/
theorem c10_siderealize_identity :
    ∀ (c : HousesPlacidus.HouseCusps) (a : ℝ) (n : ℕ),
      HousesPlacidus.siderealize_cusps c a = c
      ∧ (fun cc => HousesPlacidus.siderealize_cusps cc a)^[n] c = c :=
  fun c a n => ⟨rfl, Function.iterate_fixed rfl n⟩

/-- Claim C7: the reported tithi index follows the floor rule
(`floor(d0 / 12°) + 1`), so any difference inside `[12k, 12(k+1))` reports
index `k + 1`; in particular 11.9° gives index 1 and exactly 12.0° gives
index 2. -/
theorem c7_tithi_floor :
    (∀ (d : ℚ) (k : ℤ),
      Panchangam.TITHI_SPAN * k ≤ d → d < Panchangam.TITHI_SPAN * (k + 1) →
      Panchangam.tithi_index d = k + 1)
    ∧ Panchangam.tithi_index (119 / 10) = 1
    ∧ Panchangam.tithi_index 12 = 2 := by
  have key : ∀ (d : ℚ) (k : ℤ),
      Panchangam.TITHI_SPAN * k ≤ d → d < Panchangam.TITHI_SPAN * (k + 1) →
      Panchangam.tithi_index d = k + 1 := by
    intro d k hlo hhi
    have hfl : ⌊d / Panchangam.TITHI_SPAN⌋ = k := by
      rw [Int.floor_eq_iff]
      constructor
      · rw [le_div_iff (by norm_num [Panchangam.TITHI_SPAN])]
        calc (k : ℚ) * Panchangam.TITHI_SPAN = Panchangam.TITHI_SPAN * k := by ring
          _ ≤ d := hlo
      · rw [div_lt_iff (by norm_num [Panchangam.TITHI_SPAN])]
        calc d < Panchangam.TITHI_SPAN * (k + 1) := hhi
          _ = ((k : ℚ) + 1) * Panchangam.TITHI_SPAN := by ring
    simp [Panchangam.tithi_index, hfl]
  refine ⟨key, ?_, ?_⟩
  · have := key (119 / 10) 0 (by norm_num [Panchangam.TITHI_SPAN])
      (by norm_num [Panchangam.TITHI_SPAN])
    simpa using this
  · have := key 12 1 (by norm_num [Panchangam.TITHI_SPAN])
      (by norm_num [Panchangam.TITHI_SPAN])
    simpa using this

/-- Witness for C7 at the concrete boundary inputs 11.9° and 12.0°. -/
theorem c7_tithi_floor_witness :
    Panchangam.tithi_index (119 / 10) = 0 + 1 ∧ Panchangam.tithi_index 12 = 1 + 1 :=
  ⟨c7_tithi_floor.1 (119 / 10) 0 (by norm_num [Panchangam.TITHI_SPAN])
      (by norm_num [Panchangam.TITHI_SPAN]),
    c7_tithi_floor.1 12 1 (by norm_num [Panchangam.TITHI_SPAN])
      (by norm_num [Panchangam.TITHI_SPAN])⟩

namespace VimshottariTree

theorem chainFrom_spanSum :
    ∀ (ns : List Node) (a b : ℚ), chainFrom a b ns → spanSum ns = b - a := by
  intro ns
  induction ns with
  | nil =>
    intro a b h
    simp only [chainFrom] at h
    simp [spanSum, h]
  | cons n rest ih =>
    intro a b h
    simp only [chainFrom] at h
    obtain ⟨h1, h2⟩ := h
    have hrest := ih n.stop b h2
    simp only [spanSum, List.map_cons, List.sum_cons] at hrest ⊢
    rw [hrest, h1]
    ring

theorem lordsFrom_ne_nil (lord : String) : lordsFrom lord ≠ [] := by
  simp [lordsFrom, List.range_succ]

theorem buildRow_chain (name : String) (kids : String → ℚ → ℚ → ℚ → List Node) :
    ∀ (lords : List String), lords ≠ [] → ∀ (curStart pEnd pDays : ℚ),
      chainFrom curStart pEnd (buildRow name kids lords curStart pEnd pDays) := by
  intro lords
  induction lords with
  | nil => intro h; exact absurd rfl h
  | cons l rest ih =>
    intro _ curStart pEnd pDays
    cases rest with
    | nil =>
      simp [buildRow, chainFrom]
    | cons r rs =>
      simp only [buildRow, List.isEmpty_cons, Bool.false_eq_true, if_false]
      exact ⟨rfl, ih (by simp) _ _ _⟩

theorem buildRow_allOK (name : String) (kids : String → ℚ → ℚ → ℚ → List Node)
    (H : ∀ (l : String) (a b dd : ℚ),
      (kids l a b dd ≠ [] → chainFrom a b (kids l a b dd)) ∧ allOK (kids l a b dd)) :
    ∀ (lords : List String) (curStart pEnd pDays : ℚ),
      allOK (buildRow name kids lords curStart pEnd pDays) := by
  intro lords
  induction lords with
  | nil => intro curStart pEnd pDays; simp [buildRow, allOK]
  | cons l rest ih =>
    intro curStart pEnd pDays
    simp only [buildRow, allOK, nodeOK]
    refine ⟨⟨?_, (H l curStart _ _).2⟩, ih _ _ _⟩
    intro hne
    have hch := (H l curStart _ _).1 hne
    exact ⟨hch, chainFrom_spanSum _ _ _ hch⟩

theorem buildLevels_chain :
    ∀ (names : List String), names ≠ [] → ∀ (lord : String) (s e d : ℚ),
      chainFrom s e (buildLevels names lord s e d) := by
  intro names h lord s e d
  cases names with
  | nil => exact absurd rfl h
  | cons name deeper =>
    rw [buildLevels]
    exact buildRow_chain name _ (lordsFrom lord) (lordsFrom_ne_nil lord) s e d

theorem buildLevels_allOK :
    ∀ (names : List String) (lord : String) (s e d : ℚ),
      allOK (buildLevels names lord s e d) := by
  intro names
  induction names with
  | nil => intro lord s e d; simp [buildLevels, allOK]
  | cons name deeper ih =>
    intro lord s e d
    rw [buildLevels]
    apply buildRow_allOK
    intro l a b dd
    constructor
    · intro hne
      cases deeper with
      | nil => simp [buildLevels] at hne
      | cons dn dd2 => exact buildLevels_chain _ (by simp) l a b dd
    · exact ih l a b dd

theorem levelLoop_chain (level : String) (endQ pDays : ℚ) :
    ∀ (lords : List String), lords ≠ [] → ∀ (curStart : ℚ),
      chainFrom curStart endQ (levelLoop level endQ pDays lords curStart) := by
  intro lords
  induction lords with
  | nil => intro h; exact absurd rfl h
  | cons l rest ih =>
    intro _ curStart
    cases rest with
    | nil =>
      simp [levelLoop, chainFrom]
    | cons r rs =>
      simp only [levelLoop, List.isEmpty_cons, Bool.false_eq_true, if_false]
      by_cases hgt : curStart + pDays * (DASHA_YEARS l / 120) > endQ
      · rw [if_pos hgt]
        simp [chainFrom]
      · rw [if_neg hgt]
        by_cases hge : curStart + pDays * (DASHA_YEARS l / 120) ≥ endQ
        · have heq : curStart + pDays * (DASHA_YEARS l / 120) = endQ :=
            le_antisymm (not_lt.mp hgt) hge
          rw [if_pos hge]
          simp [chainFrom, heq]
        · rw [if_neg hge]
          exact ⟨rfl, ih (by simp) _⟩

end VimshottariTree

/-- Claim C1: every period-tree construction partitions parent intervals
exactly. Eager tree (`build_vimshottari_tree`, any start, balance and depth):
every node's nonempty children list tiles the node's own interval with no
gaps or overlaps and spans summing exactly to the parent span. Lazy builder
(`build_level_list` on a non-degenerate window `s < e`): the produced nodes
tile `[s, e]` exactly, spans summing to `e - s`. -/
theorem c1_partition :
    (∀ (s : ℚ) (lord : String) (bal : Option ℚ) (lvls : ℤ),
      VimshottariTree.treeOK (VimshottariTree.build_vimshottari_tree s lord bal lvls))
    ∧ (∀ (level : String) (s e : ℚ) (lord : String), s < e →
      VimshottariTree.partitionsE s e (VimshottariTree.build_level_list level s e lord)) := by
  constructor
  · intro s lord bal lvls
    unfold VimshottariTree.build_vimshottari_tree
    by_cases hmem : lord ∉ VimshottariTree.ORDER
    · rw [if_pos hmem]
      trivial
    · rw [if_neg hmem]
      by_cases hlv : lvls ≤ 1
      · rw [if_pos hlv]
        simp [VimshottariTree.treeOK, VimshottariTree.allOK, VimshottariTree.nodeOK]
      · rw [if_neg hlv]
        simp only [VimshottariTree.treeOK, VimshottariTree.allOK, VimshottariTree.nodeOK]
        set names :=
          if lvls > 4 then ["bhukti", "antara", "sukshma", "prana"]
          else if lvls > 3 then ["bhukti", "antara", "sukshma"]
          else if lvls > 2 then ["bhukti", "antara"]
          else ["bhukti"] with hnames
        have hne : names ≠ [] := by
          rw [hnames]
          split
          · simp
          · split
            · simp
            · split <;> simp
        refine ⟨⟨?_, VimshottariTree.buildLevels_allOK _ _ _ _ _⟩, trivial⟩
        intro _
        refine ⟨VimshottariTree.buildLevels_chain names hne lord s _ _, ?_⟩
        exact VimshottariTree.chainFrom_spanSum _ _ _
          (VimshottariTree.buildLevels_chain names hne lord s _ _)
  · intro level s e lord hlt
    unfold VimshottariTree.build_level_list
    by_cases hmem : lord ∉ VimshottariTree.ORDER
    · rw [if_pos hmem]
      trivial
    · rw [if_neg hmem, if_neg (not_le.mpr hlt)]
      simp only [VimshottariTree.partitionsE]
      have hch := VimshottariTree.levelLoop_chain level e (e - s) (VimshottariTree.lordsFrom lord)
        (VimshottariTree.lordsFrom_ne_nil lord) s
      exact ⟨hch, VimshottariTree.chainFrom_spanSum _ _ _ hch⟩

/-- Witness for C1 on the concrete window `[0, 120]` with lord Ketu. -/
theorem c1_partition_witness :
    (0 : ℚ) < 120
    ∧ VimshottariTree.partitionsE 0 120
        (VimshottariTree.build_level_list "bhukti" 0 120 "Ketu") :=
  ⟨by norm_num, c1_partition.2 "bhukti" 0 120 "Ketu" (by norm_num)⟩

/-- Claim C8: every period-tree entry point rejects a lord outside the
9-symbol alphabet with an input-validation error before constructing
anything (the result is the error value, never a partial tree or list). -/
theorem c8_invalid_lord :
    (∀ (s : ℚ) (lord : String) (bal : Option ℚ) (lvls : ℤ),
      lord ∉ VimshottariTree.ORDER →
      VimshottariTree.build_vimshottari_tree s lord bal lvls
        = Except.error ("Invalid maha lord: " ++ lord))
    ∧ (∀ (level : String) (s e : ℚ) (lord : String), lord ∉ VimshottariTree.ORDER →
      VimshottariTree.build_level_list level s e lord
        = Except.error ("Invalid lord: " ++ lord))
    ∧ (∀ (s : ℚ) (lord : String) (bal : Option ℚ), lord ∉ VimshottariTree.ORDER →
      VimshottariTree.build_mahadasha_list_120y_9items s lord bal
        = Except.error ("Invalid maha lord: " ++ lord)) := by
  refine ⟨?_, ?_, ?_⟩
  · intro s lord bal lvls h
    rw [VimshottariTree.build_vimshottari_tree, if_pos h]
  · intro level s e lord h
    rw [VimshottariTree.build_level_list, if_pos h]
  · intro s lord bal h
    rw [VimshottariTree.build_mahadasha_list_120y_9items, if_pos h]

/-- Witness for C8 at the out-of-alphabet lord symbol "Pluto". -/
theorem c8_invalid_lord_witness :
    ("Pluto" ∉ VimshottariTree.ORDER)
    ∧ VimshottariTree.build_vimshottari_tree 0 "Pluto" none 5
        = Except.error ("Invalid maha lord: " ++ "Pluto")
    ∧ VimshottariTree.build_level_list "bhukti" 0 1 "Pluto"
        = Except.error ("Invalid lord: " ++ "Pluto")
    ∧ VimshottariTree.build_mahadasha_list_120y_9items 0 "Pluto" none
        = Except.error ("Invalid maha lord: " ++ "Pluto") :=
  ⟨by decide, c8_invalid_lord.1 0 "Pluto" none 5 (by decide),
    c8_invalid_lord.2.1 "bhukti" 0 1 "Pluto" (by decide),
    c8_invalid_lord.2.2 0 "Pluto" none (by decide)⟩

/-- At the exact start of star span `k` the code's sub lord is Ketu (the
head of the canonical order), whatever the star lord is: the sub scan in
`kp_star_sub` always walks `DASHA_ORDER` from its head. -/
theorem kp_star_sub_boundary (k : ℕ) (hk : k < 27) :
    KpCalc.kp_star_sub ((k : ℚ) * KpCalc.star_size)
      = (KpCalc.NAKSHATRA_LORDS.getD k ("Mercury"), "Ketu") := by
  have hs : (0:ℚ) < KpCalc.star_size := by norm_num [KpCalc.star_size]
  have h0 : (0:ℚ) ≤ (k : ℚ) * KpCalc.star_size := by positivity
  have h1 : (k : ℚ) * KpCalc.star_size < 360 := by
    have hk27 : (k : ℚ) < 27 := by exact_mod_cast hk
    calc (k : ℚ) * KpCalc.star_size < 27 * KpCalc.star_size :=
          mul_lt_mul_of_pos_right hk27 hs
      _ = 360 := by norm_num [KpCalc.star_size]
  have hnorm : KpCalc.norm360 ((k : ℚ) * KpCalc.star_size) = (k : ℚ) * KpCalc.star_size := by
    simp only [KpCalc.norm360]
    rw [pymod_eq_self h0 h1, if_pos h0]
  have hfl : ⌊(k : ℚ) * KpCalc.star_size / KpCalc.star_size⌋ = (k : ℤ) := by
    rw [mul_div_assoc, div_self hs.ne', mul_one, Int.floor_natCast]
  unfold KpCalc.kp_star_sub
  dsimp only
  rw [hnorm, hfl, Int.toNat_natCast]
  have hpos : (k : ℚ) * KpCalc.star_size - (k : ℚ) * KpCalc.star_size = 0 := by ring
  rw [hpos]
  norm_num [KpCalc.subScan, KpCalc.DASHA_ORDER, KpCalc.star_size, KpCalc.TOTAL_YEARS]

/-- At the exact start of star span `k` the code's sub-sub lord is also
Ketu: the sub-sub scan in `kp_star_sub_sub` restarts at the head of
`DASHA_ORDER` as well, not at the sub lord. -/
theorem kp_star_sub_sub_boundary (k : ℕ) (hk : k < 27) :
    (KpCalc.kp_star_sub_sub ((k : ℚ) * KpCalc.star_size)).2.2 = "Ketu" := by
  have hs : (0:ℚ) < KpCalc.star_size := by norm_num [KpCalc.star_size]
  have h0 : (0:ℚ) ≤ (k : ℚ) * KpCalc.star_size := by positivity
  have h1 : (k : ℚ) * KpCalc.star_size < 360 := by
    have hk27 : (k : ℚ) < 27 := by exact_mod_cast hk
    calc (k : ℚ) * KpCalc.star_size < 27 * KpCalc.star_size :=
          mul_lt_mul_of_pos_right hk27 hs
      _ = 360 := by norm_num [KpCalc.star_size]
  have hnorm : KpCalc.norm360 ((k : ℚ) * KpCalc.star_size) = (k : ℚ) * KpCalc.star_size := by
    simp only [KpCalc.norm360]
    rw [pymod_eq_self h0 h1, if_pos h0]
  have hfl : ⌊(k : ℚ) * KpCalc.star_size / KpCalc.star_size⌋ = (k : ℤ) := by
    rw [mul_div_assoc, div_self hs.ne', mul_one, Int.floor_natCast]
  unfold KpCalc.kp_star_sub_sub
  dsimp only
  rw [hnorm, hfl, Int.toNat_natCast]
  have hpos : (k : ℚ) * KpCalc.star_size - (k : ℚ) * KpCalc.star_size = 0 := by ring
  rw [hpos]
  norm_num [KpCalc.subScan2, KpCalc.subSubScan, KpCalc.DASHA_ORDER, KpCalc.star_size,
    KpCalc.TOTAL_YEARS]

/-- Counterexample to claim C2: longitude 13°20′ (= 40/3) is the very start
of the second star span, whose star lord is Venus, yet the code's sub lord
there is Ketu, not the star's own lord — the sub cycle does not restart at
the star lord. -/
theorem c2_counterexample :
    KpCalc.kp_star_sub (40 / 3) = ("Venus", "Ketu")
    ∧ ("Ketu" : String) ≠ "Venus" := by
  constructor
  · have h := kp_star_sub_boundary 1 (by norm_num)
    have he : ((1 : ℕ) : ℚ) * KpCalc.star_size = 40 / 3 := by
      norm_num [KpCalc.star_size]
    rw [he] at h
    rw [h]
    rfl
  · decide

/-- Claim C2 (amended): the level-2 sub scan and the level-3 sub-sub scan
both lay the 9 weighted spans in the canonical cyclic order starting always
from Ketu (the head of `DASHA_ORDER`), regardless of the star or sub lord;
consequently the first sub-span (and first sub-sub-span) of every one of
the 27 stars has Ketu as its lord. -/
theorem c2_amended (k : ℕ) (hk : k < 27) :
    (KpCalc.kp_star_sub ((k : ℚ) * KpCalc.star_size)).2 = "Ketu"
    ∧ (KpCalc.kp_star_sub_sub ((k : ℚ) * KpCalc.star_size)).2.2 = "Ketu" :=
  ⟨by rw [kp_star_sub_boundary k hk], kp_star_sub_sub_boundary k hk⟩

/-- Witness for the amended C2 at star index 1 (the Venus star). -/
theorem c2_amended_witness :
    (1 : ℕ) < 27
    ∧ (KpCalc.kp_star_sub (((1 : ℕ) : ℚ) * KpCalc.star_size)).2 = "Ketu"
    ∧ (KpCalc.kp_star_sub_sub (((1 : ℕ) : ℚ) * KpCalc.star_size)).2.2 = "Ketu" :=
  ⟨by norm_num, (c2_amended 1 (by norm_num)).1, (c2_amended 1 (by norm_num)).2⟩

/-- The scan loop of `_sun_moon_sid_at` leaves the moon slot `none` when no
entry of the list is named (case-insensitively) "moon". -/
theorem scanSunMoon_moon_none :
    ∀ (ps : List (String × ℚ)) (st : Option ℚ × Option ℚ),
      (∀ p ∈ ps, lowerStr p.1 ≠ "moon") → st.2 = none →
      (ps.foldl
        (fun (st : Option ℚ × Option ℚ) p =>
          let nm := lowerStr p.1
          if nm = "sun" then (some p.2, st.2)
          else if nm = "moon" then (st.1, some p.2)
          else st) st).2 = none := by
  intro ps
  induction ps with
  | nil => intro st h hst; simpa using hst
  | cons p rest ih =>
    intro st h hst
    simp only [List.foldl_cons]
    have hperm : lowerStr p.1 ≠ "moon" := h p (by simp)
    have htail : ∀ q ∈ rest, lowerStr q.1 ≠ "moon" := fun q hq => h q (by simp [hq])
    by_cases hsun : lowerStr p.1 = "sun"
    · apply ih _ htail
      simp [hsun, hst]
    · apply ih _ htail
      simp [hsun, hperm, hst]

/-- Counterexample to claim C3: a position list with no "Moon" entry does
not make the panchangam sun/moon lookup fail — it substitutes the first two
entries (here the Sun and Mercury longitudes) and returns a result. -/
theorem c3_counterexample :
    Panchangam.sun_moon_sid_at [("Sun", 10), ("Mercury", 50)] 0 = some (10, 50) := by
  have hSun : lowerStr "Sun" = "sun" := by decide
  have hM1 : ¬ (lowerStr "Mercury" = "sun") := by decide
  have hM2 : ¬ (lowerStr "Mercury" = "moon") := by decide
  have hscan : Panchangam.scanSunMoon [("Sun", (10:ℚ)), ("Mercury", 50)] = (some 10, none) := by
    simp [Panchangam.scanSunMoon, hSun, hM1, hM2]
  have h10 : Panchangam.wrap360 (10 : ℚ) = 10 := by
    simp only [Panchangam.wrap360]
    rw [pymod_eq_self (by norm_num) (by norm_num)]
    norm_num
  have h50 : Panchangam.wrap360 (50 : ℚ) = 50 := by
    simp only [Panchangam.wrap360]
    rw [pymod_eq_self (by norm_num) (by norm_num)]
    norm_num
  simp [Panchangam.sun_moon_sid_at, hscan, h10, h50]

/-- Claim C3 (amended): `_ensure_session` does fail with a lookup error when
the Moon is absent from the position list; but the panchangam lookup
`_sun_moon_sid_at` does not — on any list with at least two entries and no
(case-insensitive) "moon" name it returns a result computed from the first
two entries as substitutes. -/
theorem c3_amended :
    (∀ ps : List (String × ℚ), (∀ p ∈ ps, lowerStr p.1 ≠ "moon") →
      MainApp.ensure_session_moon ps
        = Except.error ("Moon not found in NASA planets list"))
    ∧ (∀ (p0 p1 : String × ℚ) (rest : List (String × ℚ)) (ayan : ℚ),
      (∀ p ∈ p0 :: p1 :: rest, lowerStr p.1 ≠ "moon") →
      Panchangam.sun_moon_sid_at (p0 :: p1 :: rest) ayan
        = some (Panchangam.wrap360 (p0.2 - ayan), Panchangam.wrap360 (p1.2 - ayan))) := by
  constructor
  · intro ps h
    have hfind : ps.find? (fun p => lowerStr p.1 = "moon") = none := by
      rw [List.find?_eq_none]
      intro a ha
      simpa using h a ha
    simp [MainApp.ensure_session_moon, hfind]
  · intro p0 p1 rest ayan h
    have hmoon : (Panchangam.scanSunMoon (p0 :: p1 :: rest)).2 = none :=
      scanSunMoon_moon_none (p0 :: p1 :: rest) (none, none) h rfl
    simp only [Panchangam.sun_moon_sid_at]
    rw [if_pos (Or.inr hmoon)]
    simp

/-- Witness for the amended C3 on the concrete moon-less list
`[("Sun", 10), ("Mercury", 50)]`. -/
theorem c3_amended_witness :
    MainApp.ensure_session_moon [("Sun", 10), ("Mercury", 50)]
        = Except.error ("Moon not found in NASA planets list")
    ∧ Panchangam.sun_moon_sid_at [("Sun", 10), ("Mercury", 50)] 3
        = some (Panchangam.wrap360 ((10 : ℚ) - 3), Panchangam.wrap360 ((50 : ℚ) - 3)) :=
  ⟨c3_amended.1 [("Sun", 10), ("Mercury", 50)] (by decide),
    c3_amended.2 ("Sun", 10) ("Mercury", 50) [] 3 (by decide)⟩

/-- Claim C6: `moon_vimshottari_info` maps a Moon sidereal longitude in
`[0, 360)` to the lord at index `floor(lon / 13°20′) mod 9` of the
canonical cyclic order, with
`balance_years = total_years * (1 - elapsed / span)` where `elapsed` is the
offset inside the nakshatra span; at an exact nakshatra boundary the
balance equals the lord's full weight-years. -/
theorem c6_moon_info :
    (∀ lon : ℚ, 0 ≤ lon → lon < 360 →
      (VimshottariUtils.moon_vimshottari_info lon).1
        = VimshottariUtils.ORDER.getD
            ((⌊lon / VimshottariUtils.NAKSHATRA_SPAN⌋).toNat % 9) ("Ketu")
      ∧ (VimshottariUtils.moon_vimshottari_info lon).2
        = VimshottariUtils.DASHA_YEARS ((VimshottariUtils.moon_vimshottari_info lon).1)
          * (1 - (lon - VimshottariUtils.NAKSHATRA_SPAN * ⌊lon / VimshottariUtils.NAKSHATRA_SPAN⌋)
              / VimshottariUtils.NAKSHATRA_SPAN))
    ∧ (∀ k : ℕ, k < 27 →
      (VimshottariUtils.moon_vimshottari_info
          ((k : ℚ) * VimshottariUtils.NAKSHATRA_SPAN)).2
        = VimshottariUtils.DASHA_YEARS
            ((VimshottariUtils.moon_vimshottari_info
              ((k : ℚ) * VimshottariUtils.NAKSHATRA_SPAN)).1)) := by
  constructor
  · intro lon h0 h1
    have hn : pymod lon 360 = lon := pymod_eq_self h0 h1
    unfold VimshottariUtils.moon_vimshottari_info
    dsimp only
    rw [hn]
    exact ⟨rfl, rfl⟩
  · intro k hk
    have hspan : (0:ℚ) < VimshottariUtils.NAKSHATRA_SPAN := by
      norm_num [VimshottariUtils.NAKSHATRA_SPAN]
    have h0 : (0:ℚ) ≤ (k : ℚ) * VimshottariUtils.NAKSHATRA_SPAN := by positivity
    have h1 : (k : ℚ) * VimshottariUtils.NAKSHATRA_SPAN < 360 := by
      have hk27 : (k : ℚ) < 27 := by exact_mod_cast hk
      calc (k : ℚ) * VimshottariUtils.NAKSHATRA_SPAN
          < 27 * VimshottariUtils.NAKSHATRA_SPAN :=
            mul_lt_mul_of_pos_right hk27 hspan
        _ = 360 := by norm_num [VimshottariUtils.NAKSHATRA_SPAN]
    have hn : pymod ((k : ℚ) * VimshottariUtils.NAKSHATRA_SPAN) 360
        = (k : ℚ) * VimshottariUtils.NAKSHATRA_SPAN := pymod_eq_self h0 h1
    have hoff : pymod ((k : ℚ) * VimshottariUtils.NAKSHATRA_SPAN)
        VimshottariUtils.NAKSHATRA_SPAN = 0 := by
      unfold pymod
      rw [mul_div_assoc, div_self hspan.ne', mul_one, Int.floor_natCast]
      push_cast
      ring
    unfold VimshottariUtils.moon_vimshottari_info
    dsimp only
    rw [hn, hoff]
    norm_num

/-- Witness for C6 at longitude 20° and at the boundary of nakshatra 1. -/
theorem c6_moon_info_witness :
    ((VimshottariUtils.moon_vimshottari_info 20).1
        = VimshottariUtils.ORDER.getD
            ((⌊(20 : ℚ) / VimshottariUtils.NAKSHATRA_SPAN⌋).toNat % 9) ("Ketu")
      ∧ (VimshottariUtils.moon_vimshottari_info 20).2
        = VimshottariUtils.DASHA_YEARS ((VimshottariUtils.moon_vimshottari_info 20).1)
          * (1 - ((20 : ℚ) - VimshottariUtils.NAKSHATRA_SPAN
                * ⌊(20 : ℚ) / VimshottariUtils.NAKSHATRA_SPAN⌋)
              / VimshottariUtils.NAKSHATRA_SPAN))
    ∧ (VimshottariUtils.moon_vimshottari_info
          (((1 : ℕ) : ℚ) * VimshottariUtils.NAKSHATRA_SPAN)).2
        = VimshottariUtils.DASHA_YEARS
            ((VimshottariUtils.moon_vimshottari_info
              (((1 : ℕ) : ℚ) * VimshottariUtils.NAKSHATRA_SPAN)).1) :=
  ⟨c6_moon_info.1 20 (by norm_num) (by norm_num), c6_moon_info.2 1 (by norm_num)⟩
